import Mathlib

/-!
# Verification of the pwlp bytecode VM, codec and server against its specification

Shallow embedding of the relevant parts of the `pwlp` sources:
* `src/pwlp/instructions.rs` — opcode families and sub-operation decoders;
* `src/pwlp/vm.rs`           — the stack virtual machine (`State::run`);
* `src/pwlp/strip.rs`        — the in-memory `DummyStrip` pixel buffer;
* `src/pwlp/protocol.rs`     — the signed wire-message codec;
* `src/pwlp/server.rs`       — one iteration of the server receive loop;
* `src/pwlp/ast.rs`          — expression constant folding (`const_value`).

Machine integers (`u8`, `u32`, `usize`) are modelled as `Nat` with explicit
`% 2^32` (resp. `% 256`) where Rust wraps.  Rust panics (`assert!`, integer
underflow of `usize` subtraction, division by zero, out-of-bounds indexing)
are modelled as an explicit `panicked` result, kept distinct from the VM's
`Outcome::Error` results.  The stack `Vec<u32>` is modelled as a `List Nat`
whose head is the top of the stack (Rust pushes/pops at the end of the
vector; depth `p` from the top is list index `p`).
-/

set_option maxRecDepth 4096

namespace Pwlp

/-- The modulus 2^32 for `u32` wrap-around arithmetic. -/
def U32 : Nat := 4294967296

/-! ## instructions.rs -/

/-- The opcode families of `instructions.rs` (`enum Prefix`, nibbles
`0,1,2,3,4,5,6,7,8,E,F`).  Named `PrefixNibble` here. -/
inductive PrefixNibble where
  | POP | PUSHB | PEEK | PUSHI | JMP | JZ | JNZ | UNARY | BINARY | USER | SPECIAL
  deriving DecidableEq, Repr

/-- Source `Prefix::from` (instructions.rs:19-34): match on `code & 0xF0`. -/
def PrefixNibble.ofByte (code : Nat) : Option PrefixNibble :=
  if code &&& 0xF0 = 0x00 then some .POP
  else if code &&& 0xF0 = 0x10 then some .PUSHB
  else if code &&& 0xF0 = 0x20 then some .PEEK
  else if code &&& 0xF0 = 0x30 then some .PUSHI
  else if code &&& 0xF0 = 0x40 then some .JMP
  else if code &&& 0xF0 = 0x50 then some .JZ
  else if code &&& 0xF0 = 0x60 then some .JNZ
  else if code &&& 0xF0 = 0x70 then some .UNARY
  else if code &&& 0xF0 = 0x80 then some .BINARY
  else if code &&& 0xF0 = 0xE0 then some .USER
  else if code &&& 0xF0 = 0xF0 then some .SPECIAL
  else none

/-- Source `enum Special` (instructions.rs:61-66). -/
inductive Special where
  | SWAP | DUMP | YIELD | TWOBYTE
  deriving DecidableEq, Repr

/-- Modelled from the spec: `Special::from` is called at vm.rs:166 but its body
is not among the provided sources.  The spec (§4.1) assigns `SPECIAL` the
sub-operations `12 SWAP, 13 DUMP, 14 YIELD, 15 TWOBYTE(reserved)`; every other
postfix is outside the family's valid range (decoder returns no instruction). -/
def Special.fromCode (code : Nat) : Option Special :=
  if code = 12 then some .SWAP
  else if code = 13 then some .DUMP
  else if code = 14 then some .YIELD
  else if code = 15 then some .TWOBYTE
  else none

/-- Source `enum Unary` (instructions.rs:70-77). -/
inductive Unary where
  | INC | DEC | NOT | NEG | SHL8 | SHR8
  deriving DecidableEq, Repr

/-- Source `Unary::from` (instructions.rs:80-90). -/
def Unary.fromCode (code : Nat) : Option Unary :=
  if code = 0 then some .INC
  else if code = 1 then some .DEC
  else if code = 2 then some .NOT
  else if code = 3 then some .NEG
  else if code = 4 then some .SHL8
  else if code = 5 then some .SHR8
  else none

/-- Source `enum Binary` (instructions.rs:112-129). -/
inductive Binary where
  | ADD | SUB | DIV | MUL | MOD | AND | OR | XOR
  | GT | GTE | LT | LTE | EQ | NEQ | SHL | SHR
  deriving DecidableEq, Repr

/-- Source `Binary::from` (instructions.rs:132-152); all sixteen postfix values map to
an operation. -/
def Binary.fromCode (code : Nat) : Option Binary :=
  if code = 0 then some .ADD
  else if code = 1 then some .SUB
  else if code = 2 then some .DIV
  else if code = 3 then some .MUL
  else if code = 4 then some .MOD
  else if code = 5 then some .AND
  else if code = 6 then some .OR
  else if code = 7 then some .XOR
  else if code = 8 then some .GT
  else if code = 9 then some .GTE
  else if code = 10 then some .LT
  else if code = 11 then some .LTE
  else if code = 12 then some .EQ
  else if code = 13 then some .NEQ
  else if code = 14 then some .SHL
  else if code = 15 then some .SHR
  else none

/-- Source `enum UserCommand` (instructions.rs:184-192). -/
inductive UserCommand where
  | GET_LENGTH | GET_WALL_TIME | GET_PRECISE_TIME | SET_PIXEL | BLIT
  | RANDOM_INT | GET_PIXEL
  deriving DecidableEq, Repr

/-- Modelled from the spec: `UserCommand::from` is called at vm.rs:86 but its
body is not among the provided sources.  The spec (§4.1) assigns `USER` the
host calls `0 GET_LENGTH, 1 GET_WALL_TIME, 2 GET_PRECISE_TIME, 3 SET_PIXEL,
4 BLIT, 5 RANDOM_INT, 6 GET_PIXEL`; every other postfix is outside the
family's valid range. -/
def UserCommand.fromCode (code : Nat) : Option UserCommand :=
  if code = 0 then some .GET_LENGTH
  else if code = 1 then some .GET_WALL_TIME
  else if code = 2 then some .GET_PRECISE_TIME
  else if code = 3 then some .SET_PIXEL
  else if code = 4 then some .BLIT
  else if code = 5 then some .RANDOM_INT
  else if code = 6 then some .GET_PIXEL
  else none

/-- Modelled from the spec: `Unary::apply` is called at vm.rs:309 but its body
is not among the provided sources.  Per the spec (§4.1) arithmetic wraps,
`NOT` is bitwise complement (as in the constant folder, ast.rs:359), `NEG` is
two's-complement negation and `SHL8`/`SHR8` shift by 8 bits.  Operands are
`u32` values (below `2^32`). -/
def Unary.apply : Unary → Nat → Nat
  | .INC, a => (a + 1) % U32
  | .DEC, a => (a + U32 - 1) % U32
  | .NOT, a => a ^^^ 0xFFFFFFFF
  | .NEG, a => (U32 - a) % U32
  | .SHL8, a => (a <<< 8) % U32
  | .SHR8, a => a >>> 8

/-- Modelled from the spec: `Binary::apply` is called at vm.rs:295 but its body
is not among the provided sources.  Per the spec (§4.1) all overflow wraps and
comparisons yield 1/0.  The spec assigns `DIV`/`MOD` with rhs = 0 the VM error
`DivisionByZero`, but the call site `self.stack.push(op.apply(lhs, rhs))`
forces a plain `u32` result, so no error value can be produced there: a Rust
`u32` division or remainder by zero panics, modelled as `none` (a panic).
Shift amounts are taken mod 32 as in Rust's wrapping shifts. -/
def Binary.apply : Binary → Nat → Nat → Option Nat
  | .ADD, a, b => some ((a + b) % U32)
  | .SUB, a, b => some ((a + U32 - b % U32) % U32)
  | .DIV, a, b => if b = 0 then none else some (a / b)
  | .MUL, a, b => some ((a * b) % U32)
  | .MOD, a, b => if b = 0 then none else some (a % b)
  | .AND, a, b => some (a &&& b)
  | .OR, a, b => some (a ||| b)
  | .XOR, a, b => some (a ^^^ b)
  | .GT, a, b => some (if b < a then 1 else 0)
  | .GTE, a, b => some (if b ≤ a then 1 else 0)
  | .LT, a, b => some (if a < b then 1 else 0)
  | .LTE, a, b => some (if a ≤ b then 1 else 0)
  | .EQ, a, b => some (if a = b then 1 else 0)
  | .NEQ, a, b => some (if a = b then 0 else 1)
  | .SHL, a, b => some ((a <<< (b % 32)) % U32)
  | .SHR, a, b => some (a >>> (b % 32))

/-! ## strip.rs -/

/-- Source `struct Color` (strip.rs:3-7); components are `u8` values. -/
structure Color where
  r : Nat
  g : Nat
  b : Nat
  deriving DecidableEq, Repr

/-- Source `struct DummyStrip` (strip.rs:27-31); `data` holds `3 * length` bytes
(r,g,b per pixel).  The `trace` flag only controls stdout output and is
omitted. -/
structure DummyStrip where
  length : Nat
  data : List Nat
  deriving DecidableEq, Repr

/-- Source `DummyStrip::new` (strip.rs:34-40). -/
def DummyStrip.new (length : Nat) : DummyStrip :=
  { length := length, data := List.replicate (length * 3) 0 }

/-- Source `DummyStrip::set_pixel` (strip.rs:48-58): `assert!(idx < self.length)`
panics (modelled as `none`) when the index is out of range; otherwise writes
the three bytes of pixel `idx`. -/
def DummyStrip.set_pixel (s : DummyStrip) (idx r g b : Nat) : Option DummyStrip :=
  if idx < s.length then
    some { s with data := (((s.data.set (idx * 3) r).set (idx * 3 + 1) g).set (idx * 3 + 2) b) }
  else
    none

/-- Source `DummyStrip::get_pixel` (strip.rs:60-72): `assert!(idx < self.length)`
panics (modelled as `none`) when the index is out of range; otherwise reads
the three bytes of pixel `idx`. -/
def DummyStrip.get_pixel (s : DummyStrip) (idx : Nat) : Option Color :=
  if idx < s.length then
    some { r := s.data.getD (idx * 3) 0
           g := s.data.getD (idx * 3 + 1) 0
           b := s.data.getD (idx * 3 + 2) 0 }
  else
    none

/-! ## vm.rs -/

/-- Source `enum VMError` (vm.rs:25-29).  Note: these are the only two variants. -/
inductive VMError where
  | UnknownInstruction
  | StackUnderflow
  deriving DecidableEq, Repr

/-- Source `enum Outcome` (vm.rs:31-37). -/
inductive Outcome where
  | Ended
  | GlobalInstructionLimitReached
  | LocalInstructionLimitReached
  | Yielded
  | Error (e : VMError)
  deriving DecidableEq, Repr

/-- Source `struct State` (vm.rs:8-17) together with the `VM` fields it reads
(vm.rs:19-23).  The stack's head is its top.  The ambient clock reads
(`SystemTime::now`) of the non-deterministic mode are modelled by the fields
`wall_time` (seconds since epoch) and `precise_time` (milliseconds since VM
start); the ChaCha20 `deterministic_rng` is abstracted as the stream `rng`
consumed at position `rng_count`.  The `trace` flag only controls stdout
output and is omitted. -/
structure VMState where
  program : List Nat
  pc : Nat
  stack : List Nat
  instruction_count : Nat
  instruction_limit : Option Nat
  deterministic : Bool
  wall_time : Nat
  precise_time : Nat
  rng : Nat → Nat
  rng_count : Nat
  strip : DummyStrip

/-- Source `State::new` (vm.rs:40-51) for a `VM::new` host (vm.rs:353-359):
`pc = 0`, empty stack, zero counters, non-deterministic mode. -/
def initState (program : List Nat) (strip : DummyStrip) : VMState :=
  { program := program, pc := 0, stack := [], instruction_count := 0,
    instruction_limit := none, deterministic := false, wall_time := 0,
    precise_time := 0, rng := fun _ => 0, rng_count := 0, strip := strip }

/-- Result of executing the body of one iteration of the `run` loop for a
recognised opcode: `next` falls through to the `pc += 1` tail, `jump` skips it
(the `continue` after `JMP`/`JZ`/`JNZ`), `halted` returns the outcome from
inside the loop, `panicked` models a Rust panic (`assert!`, out-of-bounds
indexing, division by zero, empty rng range). -/
inductive StepResult where
  | next (s : VMState)
  | jump (s : VMState)
  | halted (o : Outcome) (s : VMState)
  | panicked

/-- Source `State::pushi` (vm.rs:56-69): pushes `n` groups of 4 little-endian operand
bytes, advancing `pc` by 4 per group.  Rust's slice indexing panics
(`none`) when an operand byte lies outside the program. -/
def pushiAux : Nat → VMState → Option VMState
  | 0, s => some s
  | n + 1, s =>
    match s.program[s.pc + 1]?, s.program[s.pc + 2]?,
          s.program[s.pc + 3]?, s.program[s.pc + 4]? with
    | some b1, some b2, some b3, some b4 =>
      pushiAux n { s with
        stack := (b1 ||| (b2 <<< 8) ||| (b3 <<< 16) ||| (b4 <<< 24)) :: s.stack,
        pc := s.pc + 4 }
    | _, _, _, _ => none

/-- Source `State::pushb` (vm.rs:71-83), nonzero-postfix loop: `pc += 1` then push the
byte at `pc`, `n` times.  Rust's indexing panics (`none`) past the program. -/
def pushbAux : Nat → VMState → Option VMState
  | 0, s => some s
  | n + 1, s =>
    match s.program[s.pc + 1]? with
    | some b => pushbAux n { s with stack := b :: s.stack, pc := s.pc + 1 }
    | none => none

/-- Source `State::user` (vm.rs:85-163): dispatch of the `USER` family. -/
def userStep (s : VMState) (pfix : Nat) : StepResult :=
  match UserCommand.fromCode pfix with
  | none => .halted (.Error .UnknownInstruction) s
  | some .GET_LENGTH => .next { s with stack := s.strip.length :: s.stack }
  | some .GET_WALL_TIME =>
    if s.deterministic then
      .next { s with stack := ((s.instruction_count / 10) % U32) :: s.stack }
    else
      .next { s with stack := (s.wall_time % U32) :: s.stack }
  | some .GET_PRECISE_TIME =>
    if s.deterministic then
      .next { s with stack := (s.instruction_count % U32) :: s.stack }
    else
      .next { s with stack := (s.precise_time % U32) :: s.stack }
  | some .SET_PIXEL =>
    match s.stack with
    | [] => .halted (.Error .StackUnderflow) s
    | v :: rest =>
      match rest with
      | [] => .panicked
      | idx :: _ =>
        match s.strip.set_pixel idx (v &&& 0xFF) ((v >>> 8) &&& 0xFF) ((v >>> 16) &&& 0xFF) with
        | some strip' => .next { s with stack := rest, strip := strip' }
        | none => .panicked
  | some .BLIT => .next s
  | some .RANDOM_INT =>
    match s.stack with
    | [] => .halted (.Error .StackUnderflow) s
    | v :: rest =>
      if v = 0 then .panicked
      else .next { s with stack := (s.rng s.rng_count % v) :: rest,
                          rng_count := s.rng_count + 1 }
  | some .GET_PIXEL =>
    match s.stack with
    | [] => .halted (.Error .StackUnderflow) s
    | v :: rest =>
      match s.strip.get_pixel v with
      | none => .panicked
      | some color =>
        .next { s with stack :=
          ((v &&& 0xFF) ||| (color.r <<< 8) ||| (color.g <<< 16) ||| (color.b <<< 24)) :: rest }

/-- Source `State::special` (vm.rs:165-191): dispatch of the `SPECIAL` family. -/
def specialStep (s : VMState) (pfix : Nat) : StepResult :=
  match Special.fromCode pfix with
  | none => .halted (.Error .UnknownInstruction) s
  | some .SWAP =>
    match s.stack with
    | lhs :: rhs :: rest => .next { s with stack := rhs :: lhs :: rest }
    | _ => .halted (.Error .StackUnderflow) s
  | some .DUMP => .next s
  | some .YIELD => .halted .Yielded { s with pc := s.pc + 1 }
  | some .TWOBYTE => .halted (.Error .UnknownInstruction) s

/-- The dispatch `match` of `State::run` (vm.rs:220-327), executed after the
prefix has been recognised and the instruction counters incremented. -/
def execInstr (s : VMState) (pre : PrefixNibble) (pfix : Nat) : StepResult :=
  match pre with
  | .PUSHI =>
    match pushiAux pfix s with
    | some s' => .next s'
    | none => .panicked
  | .PUSHB =>
    if pfix = 0 then .next { s with stack := 0 :: s.stack }
    else
      match pushbAux pfix s with
      | some s' => .next s'
      | none => .panicked
  | .POP =>
    if pfix ≤ s.stack.length then .next { s with stack := s.stack.drop pfix }
    else .panicked
  | .PEEK =>
    if pfix < s.stack.length then .next { s with stack := s.stack.getD pfix 0 :: s.stack }
    else .panicked
  | .JMP | .JZ | .JNZ =>
    match s.program[s.pc + 1]?, s.program[s.pc + 2]? with
    | some t1, some t2 =>
      let target := t1 ||| (t2 <<< 8)
      match pre with
      | .JMP => .jump { s with pc := target }
      | .JZ =>
        match s.stack with
        | [] => .halted (.Error .StackUnderflow) s
        | head :: _ =>
          if head = 0 then .jump { s with pc := target }
          else .jump { s with pc := s.pc + 3 }
      | .JNZ =>
        match s.stack with
        | [] => .halted (.Error .StackUnderflow) s
        | head :: _ =>
          if head ≠ 0 then .jump { s with pc := target }
          else .jump { s with pc := s.pc + 3 }
      | _ => .halted (.Error .UnknownInstruction) s
    | _, _ => .panicked
  | .BINARY =>
    match Binary.fromCode pfix with
    | some op =>
      match s.stack with
      | rhs :: lhs :: rest =>
        match Binary.apply op lhs rhs with
        | some v => .next { s with stack := v :: rest }
        | none => .panicked
      | _ => .halted (.Error .StackUnderflow) s
    | none => .halted (.Error .UnknownInstruction) s
  | .UNARY =>
    match Unary.fromCode pfix with
    | some op =>
      match s.stack with
      | lhs :: rest => .next { s with stack := Unary.apply op lhs :: rest }
      | [] => .halted (.Error .StackUnderflow) s
    | none => .halted (.Error .UnknownInstruction) s
  | .USER => userStep s pfix
  | .SPECIAL => specialStep s pfix

/-- The global instruction limit check of `State::run` (vm.rs:197-201):
`instruction_count >= limit`. -/
def globalHit (s : VMState) : Bool :=
  match s.instruction_limit with
  | some limit => decide (limit ≤ s.instruction_count)
  | none => false

/-- The local instruction limit check of `State::run` (vm.rs:204-208):
`local_instruction_count >= limit`. -/
def localHit (lim : Option Nat) (cnt : Nat) : Bool :=
  match lim with
  | some limit => decide (limit ≤ cnt)
  | none => false

/-- Terminal result of `State::run`: a returned `Outcome` together with the
final VM state, or a Rust panic. -/
inductive RunResult where
  | done (o : Outcome) (s : VMState)
  | panicked

/-- The `while` loop of `State::run` (vm.rs:193-348), with explicit `fuel`
(the Rust loop need not terminate; `none` means the fuel ran out before the
loop did).  Each iteration: check `pc < len` (else `Ended`), the global and
local limits, decode the prefix (an unrecognised prefix `break`s out of the
loop, vm.rs:328-336, yielding `Ended`), increment the counters, dispatch, and
for fall-through instructions `pc += 1` (vm.rs:341). -/
def runAux (lim : Option Nat) : Nat → Nat → VMState → Option RunResult
  | 0, _, _ => none
  | fuel + 1, cnt, s =>
    if s.pc < s.program.length then
      if globalHit s then some (.done .GlobalInstructionLimitReached s)
      else if localHit lim cnt then some (.done .LocalInstructionLimitReached s)
      else
        match PrefixNibble.ofByte (s.program.getD s.pc 0) with
        | none => some (.done .Ended s)
        | some pre =>
          match execInstr { s with instruction_count := s.instruction_count + 1 }
                  pre (s.program.getD s.pc 0 % 16) with
          | .next s' => runAux lim fuel (cnt + 1) { s' with pc := s'.pc + 1 }
          | .jump s' => runAux lim fuel (cnt + 1) s'
          | .halted o s' => some (.done o s')
          | .panicked => some .panicked
    else some (.done .Ended s)

/-- Source `State::run(local_instruction_limit)` (vm.rs:193): the loop entered with
`local_instruction_count = 0`. -/
def run (lim : Option Nat) (fuel : Nat) (s : VMState) : Option RunResult :=
  runAux lim fuel 0 s

/-- The outcome of a finished run, if any. -/
def outcomeOf : Option RunResult → Option Outcome
  | some (.done o _) => some o
  | _ => none

/-- The final stack of a finished run, if any. -/
def stackOf : Option RunResult → Option (List Nat)
  | some (.done _ s) => some s.stack
  | _ => none

/-- The final program counter of a finished run, if any. -/
def pcOf : Option RunResult → Option Nat
  | some (.done _ s) => some s.pc
  | _ => none

/-! ## protocol.rs

The external `hmac_sha1` function (from the `hmacsha1` crate) is not part of
this repository; the codec is parameterised over it as a function
`key → data → tag` producing a 20-byte tag. -/

/-- Source `enum MessageType` (protocol.rs:9-15). -/
inductive MessageType where
  | Ping | Pong | Set | Run | Unknown
  deriving DecidableEq, Repr

/-- Source `MessageType::from` (protocol.rs:18-26). -/
def MessageType.fromCode (t : Nat) : MessageType :=
  if t = 0x01 then .Ping
  else if t = 0x02 then .Pong
  else if t = 0x03 then .Set
  else if t = 0x04 then .Run
  else .Unknown

/-- Source `u8::from(&MessageType)` (protocol.rs:29-39); panics (`none`) on
`Unknown`. -/
def MessageType.toCode : MessageType → Option Nat
  | .Ping => some 0x01
  | .Pong => some 0x02
  | .Set => some 0x03
  | .Run => some 0x04
  | .Unknown => none

/-- Source `enum MessageError` (protocol.rs:42-46). -/
inductive MessageError where
  | SignatureInvalid | MessageTooShort | MacAddressInvalid
  deriving DecidableEq, Repr

/-- Source `struct Message` (protocol.rs:50-55).  The `eui48::MacAddress` is modelled
by its 6 raw bytes (`MacAddress::as_bytes`); `unix_time` is a `u32`. -/
structure Message where
  mac_address : List Nat
  unix_time : Nat
  message_type : MessageType
  payload : Option (List Nat)
  deriving DecidableEq, Repr

/-- The 4 little-endian bytes of a `u32` (`WriteBytesExt::write_u32`). -/
def le32_bytes (t : Nat) : List Nat :=
  [t % 256, t / 256 % 256, t / 65536 % 256, t / 16777216 % 256]

/-- Source `u32::from_le_bytes` on a 4-byte list. -/
def le32_value (bs : List Nat) : Nat :=
  bs.getD 0 0 ||| (bs.getD 1 0 <<< 8) ||| (bs.getD 2 0 <<< 16) ||| (bs.getD 3 0 <<< 24)

/-- Source `Message::peek_mac_address` (protocol.rs:64-73): requires at least
`SHA1_SIZE + MAC_SIZE = 26` bytes, then reads the first 6 bytes.
`MacAddress::from_bytes` succeeds on every 6-byte slice (eui48 only rejects
slices whose length is not 6), so the `MacAddressInvalid` branch cannot be
taken here. -/
def peek_mac_address (buffer : List Nat) : Except MessageError (List Nat) :=
  if buffer.length < 26 then .error .MessageTooShort
  else .ok (buffer.take 6)

/-- Result of `Message::from_buffer`: a parsed message, a `MessageError`, or a
Rust panic. -/
inductive ParseResult where
  | ok (m : Message)
  | err (e : MessageError)
  | panicked
  deriving DecidableEq, Repr

/-- Source `Message::from_buffer` (protocol.rs:75-107).  Panics modelled:
`let data_size = buffer.len() - SHA1_SIZE` underflows for buffers shorter
than 20 bytes (debug build; a release build wraps and then panics slicing
`&buffer[0..data_size]`), and `data_size - MAC_SIZE - TIME_SIZE` underflows
when `data_size < 10`.  Note the computed `payload_size` does not subtract
`MESSAGE_TYPE_SIZE`, and the payload is sliced from the tail of the whole
buffer (`buffer[(buffer.len() - payload_size)..]`), i.e. out of the HMAC. -/
def from_buffer (hmac : List Nat → List Nat → List Nat) (buffer key : List Nat) :
    ParseResult :=
  if buffer.length < 20 then .panicked
  else
    let data_size := buffer.length - 20
    if data_size < 6 then .err .MessageTooShort
    else
      let calculated_hmac := hmac key (buffer.take data_size)
      let provided_hmac := buffer.drop data_size
      if calculated_hmac ≠ provided_hmac then .err .SignatureInvalid
      else
        match peek_mac_address buffer with
        | .error e => .err e
        | .ok mac_address =>
          let type_number := buffer.getD 10 0
          if data_size < 10 then .panicked
          else
            let payload_size := data_size - 10
            .ok { mac_address := mac_address,
                  unix_time := le32_value ((buffer.drop 6).take 4),
                  message_type := MessageType.fromCode type_number,
                  payload :=
                    match payload_size with
                    | 0 => none
                    | _ => some (buffer.drop (buffer.length - payload_size)) }

/-- Source `Message::signed` (protocol.rs:109-134): serialise
`mac || time_le || type || payload`, sign the first `data_size` bytes, append
the tag.  `u8::from(&message_type)` panics (`none`) for `Unknown`. -/
def signed (hmac : List Nat → List Nat → List Nat) (m : Message) (key : List Nat) :
    Option (List Nat) :=
  match MessageType.toCode m.message_type with
  | none => none
  | some t =>
    let payload_bytes := match m.payload with | none => [] | some p => p
    let data_size := 6 + 4 + 1 + payload_bytes.length
    let buf := m.mac_address ++ le32_bytes m.unix_time ++ [t] ++ payload_bytes
    let signature := hmac key (buf.take data_size)
    some (buf ++ signature)

/-! ## server.rs -/

/-- Source `struct DeviceConfig` (server.rs:10-14).  In the source `program` is a
file path and `secret` a `String`; they are modelled by the program bytes
`Program::from_file` yields for that path and by the secret's bytes
(`str::as_bytes`). -/
structure DeviceConfig where
  program : Option (List Nat)
  secret : Option (List Nat)
  deriving DecidableEq, Repr

/-- Source `struct DeviceStatus` (server.rs:16-26); `address` is the peer's socket
address (kept abstract as a `String`), `last_seen` an instant (`Nat`). -/
structure DeviceStatus where
  address : String
  program : Option (List Nat)
  secret : List Nat
  last_seen : Nat
  deriving DecidableEq, Repr

/-- The server's device tables (`config` and `devices` of `ServerState`,
server.rs:34-38) are `HashMap`s keyed by the canonical MAC string; since
`MacAddress::to_canonical` is injective on 6-byte MACs they are modelled as
association lists keyed by the 6 MAC bytes. -/
def insertDevice (devices : List (List Nat × DeviceStatus)) (k : List Nat)
    (v : DeviceStatus) : List (List Nat × DeviceStatus) :=
  (k, v) :: devices.filter (fun kv => kv.1 ≠ k)

/-- The secret used to verify a datagram from MAC `mac` (server.rs:92-99):
the device's configured secret if present, else the server default. -/
def resolveSecret (config : List (List Nat × DeviceConfig))
    (default_secret : List Nat) (mac : List Nat) : List Nat :=
  match List.lookup mac config with
  | some d => match d.secret with | some s => s | none => default_secret
  | none => default_secret

/-- Result of handling one datagram: the updated device table and the frames
sent back, or a Rust panic. -/
inductive HandleResult where
  | ok (devices : List (List Nat × DeviceStatus)) (sent : List (List Nat))
  | panicked

/-- One iteration of the receive loop of `Server::run` (server.rs:74-191):
peek the MAC (on error, log and drop), resolve the per-device secret, parse
and verify (on error, log and drop), update or create the device status, and
on `Ping` reply with a signed `Pong` and a signed `Run` carrying the device's
program (current, else configured, else default), recording that program in
the status.  The `assert!` at server.rs:139-142 (the server must be able to
parse its own `Pong`) is modelled as a panic when it fails.  Sends that fail
only print, so `sent` collects the frames passed to `send_to`. -/
def handle_datagram (hmac : List Nat → List Nat → List Nat)
    (config : List (List Nat × DeviceConfig))
    (default_secret : List Nat) (default_program : List Nat)
    (devices : List (List Nat × DeviceStatus))
    (buffer : List Nat) (source_address : String) (now : Nat) : HandleResult :=
  match peek_mac_address buffer with
  | .error _ => .ok devices []
  | .ok mac =>
    let canonical_mac := mac
    let device_config := List.lookup canonical_mac config
    let secret :=
      match device_config with
      | some d => match d.secret with | some s => s | none => default_secret
      | none => default_secret
    match from_buffer hmac buffer secret with
    | .panicked => .panicked
    | .err _ => .ok devices []
    | .ok msg =>
      let status0 :=
        match List.lookup canonical_mac devices with
        | some status => status
        | none =>
          { address := source_address, program := none, secret := secret,
            last_seen := now }
      let new_status := { status0 with last_seen := now }
      match msg.message_type with
      | .Ping =>
        let pong : Message :=
          { mac_address := List.replicate 6 0, unix_time := msg.unix_time,
            message_type := .Pong, payload := none }
        match signed hmac pong secret with
        | none => .panicked
        | some pong_buf =>
          match from_buffer hmac pong_buf secret with
          | .ok _ =>
            let device_program :=
              match new_status.program with
              | some p => p
              | none =>
                match device_config with
                | some cfg =>
                  match cfg.program with
                  | some bytes => bytes
                  | none => default_program
                | none => default_program
            let run_msg : Message :=
              { mac_address := List.replicate 6 0, unix_time := msg.unix_time,
                message_type := .Run, payload := some device_program }
            let new_status2 := { new_status with program := some device_program }
            match signed hmac run_msg secret with
            | none => .panicked
            | some run_buf =>
              .ok (insertDevice devices canonical_mac new_status2) [pong_buf, run_buf]
          | _ => .panicked
      | _ => .ok (insertDevice devices canonical_mac new_status) []

/-! ## ast.rs — constant folding -/

mutual

/-- Source `enum Expression` (ast.rs:216-224). -/
inductive Expression where
  | Literal (u : Nat)
  | Unary (op : Unary) (e : Expression)
  | Binary (lhs : Expression) (op : Binary) (rhs : Expression)
  | User (u : UserCommand)
  | UserCall (u : UserCommand) (args : List Expression)
  | Load (name : String)
  | Intrinsic (i : Intrinsic)

/-- Source `enum Intrinsic` (ast.rs:211-213). -/
inductive Intrinsic where
  | Clamp (value low high : Expression)

end

/-- Result of `Expression::const_value`: a folded `u32`, "not a constant"
(Rust `None`), or a Rust panic (constant division/remainder by zero via
`overflowing_div`/`%`, or a shift amount of 32 or more). -/
inductive ConstVal where
  | panicked
  | nonConst
  | val (v : Nat)
  deriving DecidableEq, Repr

mutual

/-- Source `Expression::const_value` (ast.rs:324-391).  Note ast.rs:362 folds `SHR8`
as `c << 8` (the same as `SHL8`), and ast.rs:360 leaves `NEG` unfolded. -/
def const_value : Expression → ConstVal
  | .Literal u => .val u
  | .UserCall _ _ => .nonConst
  | .User _ => .nonConst
  | .Load _ => .nonConst
  | .Binary lhs op rhs =>
    match const_value lhs with
    | .panicked => .panicked
    | lv =>
      match const_value rhs with
      | .panicked => .panicked
      | rv =>
        match lv, rv with
        | .val lhc, .val rhc =>
          match op with
          | .ADD => .val ((lhc + rhc) % U32)
          | .SUB => .val ((lhc + U32 - rhc % U32) % U32)
          | .DIV => if rhc = 0 then .panicked else .val (lhc / rhc)
          | .MUL => .val ((lhc * rhc) % U32)
          | .MOD => if rhc = 0 then .panicked else .val (lhc % rhc)
          | .EQ => .val (if lhc = rhc then 1 else 0)
          | .NEQ => .val (if lhc = rhc then 0 else 1)
          | .LT => .val (if lhc < rhc then 1 else 0)
          | .LTE => .val (if lhc ≤ rhc then 1 else 0)
          | .GT => .val (if rhc < lhc then 1 else 0)
          | .GTE => .val (if rhc ≤ lhc then 1 else 0)
          | .OR => .val (lhc ||| rhc)
          | .XOR => .val (lhc ^^^ rhc)
          | .AND => .val (lhc &&& rhc)
          | .SHL => if rhc < 32 then .val ((lhc <<< rhc) % U32) else .panicked
          | .SHR => if rhc < 32 then .val (lhc >>> rhc) else .panicked
        | _, _ => .nonConst
  | .Unary op rhs =>
    match const_value rhs with
    | .panicked => .panicked
    | .nonConst => .nonConst
    | .val c =>
      match op with
      | .INC => .val ((c + 1) % U32)
      | .DEC => .val ((c + U32 - 1) % U32)
      | .NOT => .val (c ^^^ 0xFFFFFFFF)
      | .NEG => .nonConst
      | .SHL8 => .val ((c <<< 8) % U32)
      | .SHR8 => .val ((c <<< 8) % U32)
  | .Intrinsic i => const_value_intrinsic i

/-- The `Expression::Intrinsic` arm of `const_value` (ast.rs:369-389). -/
def const_value_intrinsic : Intrinsic → ConstVal
  | .Clamp value low high =>
    match const_value value with
    | .panicked => .panicked
    | cv =>
      match const_value low with
      | .panicked => .panicked
      | cl =>
        match const_value high with
        | .panicked => .panicked
        | ch =>
          match cv, cl, ch with
          | .val c_value, .val c_min, .val c_max =>
            let r1 := if c_value < c_min then c_min else c_value
            .val (if c_max < r1 then c_max else r1)
          | _, _, _ => .nonConst

end

/-! ## Helper lemmas -/

/-- Source `Unary::from` yields no operation for postfix values 6–15. -/
theorem unary_fromCode_high_none (n : Nat) (h6 : 6 ≤ n) (h16 : n < 16) :
    Unary.fromCode n = none := by
  interval_cases n <;> rfl

/-- The modelled `UserCommand::from` yields no command for postfix values
7–15. -/
theorem user_fromCode_high_none (n : Nat) (h7 : 7 ≤ n) (h16 : n < 16) :
    UserCommand.fromCode n = none := by
  interval_cases n <;> rfl

/-- The modelled `Special::from` yields no operation for postfix values
0–11. -/
theorem special_fromCode_low_none (n : Nat) (h12 : n < 12) :
    Special.fromCode n = none := by
  interval_cases n <;> rfl

/-- A concrete stand-in for the external `hmac_sha1` function, used to
evaluate the codec on concrete inputs: the constant 20-byte tag
`[0, 1, …, 19]`. -/
def testHmac : List Nat → List Nat → List Nat := fun _ _ => List.range 20

/-- The bytecode of `PUSHI 0xDEADBEEF; PUSHB 0; BINARY DIV`
(`0x31 EF BE AD DE`, `0x10`, `0x82`). -/
def divProgram : List Nat := [0x31, 0xEF, 0xBE, 0xAD, 0xDE, 0x10, 0x82]

/-! ## Claims -/

/-- Claim C1. The claim states that `BINARY DIV`/`MOD` with a zero right-hand
operand makes `run` return `Error(DivisionByZero)`.  `VMError` (vm.rs:25-29)
has no `DivisionByZero` variant and the `BINARY` arm (vm.rs:288-302) pushes
`op.apply(lhs, rhs)` unconditionally, so no such outcome exists: running
`PUSHI 0xDEADBEEF; PUSHB 0; BINARY DIV` reaches a `u32` division by zero,
which panics. -/
theorem C1_div_by_zero_panics :
    run none 9 (initState divProgram (DummyStrip.new 1)) = some .panicked := rfl

/-- Claim C6. The claim states that `SET_PIXEL`/`GET_PIXEL` with an index at or
past the strip length makes `run` return `Error(StripIndexOutOfRange)`.
`VMError` (vm.rs:25-29) has no such variant; `DummyStrip::set_pixel`
(strip.rs:48-58) instead `assert!`s and panics: running
`PUSHB 1 0x01; PUSHB 0; USER SET_PIXEL` on a strip of length 1 (index 1 is
out of range) panics. -/
theorem C6_strip_oob_panics :
    run none 9 (initState [0x11, 0x01, 0x10, 0xE3] (DummyStrip.new 1)) = some .panicked := rfl

/-- Claim C7. The claim states that `Unary(SHR8, e)` with operand constant `c`
folds to `c >> 8`.  The `Unary` arm of `const_value` (ast.rs:362) folds
`SHR8` as `c << 8`: for `Unary(SHR8, Literal(256))` it yields `65536`, not
`256 >> 8 = 1`. -/
theorem C7_shr8_folds_left :
    const_value (.Unary .SHR8 (.Literal 256)) = .val 65536 ∧
    ConstVal.val 65536 ≠ ConstVal.val (256 >>> 8) := ⟨rfl, by decide⟩

/-- The concrete message used against the codec round-trip claim. -/
def c4_message : Message :=
  { mac_address := [1, 2, 3, 4, 5, 6], unix_time := 7, message_type := .Ping,
    payload := none }

/-- Claim C4. The claim states that `from_buffer (signed msg key) key` returns
the original mac, time, type, and payload.  Parsing does return the original
mac, time and type, but `payload_size = data_size - MAC_SIZE - TIME_SIZE`
(protocol.rs:94) fails to subtract `MESSAGE_TYPE_SIZE` and the payload slice
`buffer[(buffer.len() - payload_size)..]` (protocol.rs:104) is taken from the
tail of the whole frame — inside the HMAC.  For a `Ping` with no payload the
parsed payload is `Some([last tag byte])`, not `None`. -/
theorem C4_roundtrip_corrupts_payload :
    from_buffer testHmac ((signed testHmac c4_message [9]).getD []) [9] =
      .ok { mac_address := [1, 2, 3, 4, 5, 6], unix_time := 7,
            message_type := .Ping, payload := some [19] } ∧
    c4_message.payload = none ∧ (some [19] : Option (List Nat)) ≠ none :=
  ⟨rfl, rfl, by decide⟩

/-- Claim C2, counterexample. An opcode byte with the undefined prefix nibble
`9` (program `[0x90]`) makes `run` return `Ended`, not
`Error(UnknownInstruction)`: the unknown-prefix branch (vm.rs:328-336)
`break`s out of the loop, which then returns `Ended` (vm.rs:348). -/
theorem C2_unknown_prefix_ends :
    outcomeOf (run none 5 (initState [0x90] (DummyStrip.new 1))) = some .Ended ∧
    some Outcome.Ended ≠ some (Outcome.Error .UnknownInstruction) := ⟨rfl, by decide⟩

/-- Claim C3, counterexample. On the nonempty single-instruction program
`[0x00]` (`POP 0`), `run(Some(1))` executes the instruction, after which
`pc = 1` equals the program length, so the loop exits with `Ended` — not
`LocalInstructionLimitReached`. -/
theorem C3_single_pop_ends :
    outcomeOf (run (some 1) 5 (initState [0x00] (DummyStrip.new 1))) = some .Ended ∧
    some Outcome.Ended ≠ some Outcome.LocalInstructionLimitReached := ⟨rfl, by decide⟩

/-- Claim C5, counterexample. Two buffers shorter than 31 bytes on which
`from_buffer` does not return `MessageTooShort`: a 10-byte buffer, where the
unchecked `buffer.len() - SHA1_SIZE` (protocol.rs:76) underflows and panics,
and a 26-byte all-zero buffer, which passes the only length check
(`data_size < 6`, protocol.rs:77) and fails at signature verification with
`SignatureInvalid` instead. -/
theorem C5_short_buffer_panics :
    (from_buffer testHmac (List.replicate 10 0) [] = .panicked ∧
     ParseResult.panicked ≠ ParseResult.err .MessageTooShort) ∧
    (from_buffer testHmac (List.replicate 26 0) [] = .err .SignatureInvalid ∧
     ParseResult.err .SignatureInvalid ≠ ParseResult.err .MessageTooShort) :=
  ⟨⟨rfl, by decide⟩, ⟨rfl, by decide⟩⟩

/-- Claim C8, counterexample. `GET_PIXEL` (vm.rs:149-161) computes
`(v & 0xFF) | r<<8 | g<<16 | b<<24`, masking the popped index to its low
8 bits.  Running `PUSHI 256; USER GET_PIXEL` on an all-black strip of length
257 leaves `[0]` on the stack, not `[256]` as the claim's unmasked
`idx | r<<8 | g<<16 | b<<24` would. -/
theorem C8_get_pixel_masks_index :
    stackOf (run none 5 (initState [0x31, 0x00, 0x01, 0x00, 0x00, 0xE6]
      (DummyStrip.new 257))) = some [0] ∧
    (some [0] : Option (List Nat)) ≠ some [256] := ⟨rfl, by decide⟩

/-- Claim C2, amended. At a position whose opcode byte has an undefined prefix
nibble, `run` returns `Ended` (decode `break`s out of the loop); at a defined
prefix whose postfix is outside the family's valid range (`UNARY` 6–15,
`USER` 7–15, `SPECIAL` 0–11), `run` returns `Error(UnknownInstruction)`.
Limits must not already have been hit, since they are checked first. -/
theorem C2_unknown_instruction :
    (∀ (lim : Option Nat) (fuel : Nat) (s : VMState) (b : Nat),
       s.pc < s.program.length →
       globalHit s = false →
       localHit lim 0 = false →
       s.program.getD s.pc 0 = b →
       PrefixNibble.ofByte b = none →
       run lim (fuel + 1) s = some (.done .Ended s)) ∧
    (∀ (lim : Option Nat) (fuel : Nat) (s : VMState) (b : Nat),
       s.pc < s.program.length →
       globalHit s = false →
       localHit lim 0 = false →
       s.program.getD s.pc 0 = b →
       b &&& 0xF0 = 0x70 →
       6 ≤ b % 16 →
       outcomeOf (run lim (fuel + 1) s) = some (.Error .UnknownInstruction)) ∧
    (∀ (lim : Option Nat) (fuel : Nat) (s : VMState) (b : Nat),
       s.pc < s.program.length →
       globalHit s = false →
       localHit lim 0 = false →
       s.program.getD s.pc 0 = b →
       b &&& 0xF0 = 0xE0 →
       7 ≤ b % 16 →
       outcomeOf (run lim (fuel + 1) s) = some (.Error .UnknownInstruction)) ∧
    (∀ (lim : Option Nat) (fuel : Nat) (s : VMState) (b : Nat),
       s.pc < s.program.length →
       globalHit s = false →
       localHit lim 0 = false →
       s.program.getD s.pc 0 = b →
       b &&& 0xF0 = 0xF0 →
       b % 16 < 12 →
       outcomeOf (run lim (fuel + 1) s) = some (.Error .UnknownInstruction)) := by
  refine ⟨?_, ?_, ?_, ?_⟩
  · intro lim fuel s b hpc hg hl hby hb
    unfold run runAux
    rw [hby]
    simp [hpc, hg, hl, hb]
  · intro lim fuel s b hpc hg hl hby hb hge
    have h16 : b % 16 < 16 := Nat.mod_lt _ (by norm_num)
    unfold run runAux
    rw [hby]
    simp [hpc, hg, hl, PrefixNibble.ofByte, hb, execInstr,
      unary_fromCode_high_none _ hge h16, outcomeOf]
  · intro lim fuel s b hpc hg hl hby hb hge
    have h16 : b % 16 < 16 := Nat.mod_lt _ (by norm_num)
    unfold run runAux
    rw [hby]
    simp [hpc, hg, hl, PrefixNibble.ofByte, hb, execInstr, userStep,
      user_fromCode_high_none _ hge h16, outcomeOf]
  · intro lim fuel s b hpc hg hl hby hb hlt
    unfold run runAux
    rw [hby]
    simp [hpc, hg, hl, PrefixNibble.ofByte, hb, execInstr, specialStep,
      special_fromCode_low_none _ hlt, outcomeOf]

/-- Witness for `C2_unknown_instruction`: the four parts evaluated at the
one-byte programs `[0x90]` (undefined prefix), `[0x76]` (`UNARY` 6),
`[0xE7]` (`USER` 7), and `[0xF0]` (`SPECIAL` 0). -/
theorem C2_unknown_instruction_witness :
    run none 1 (initState [0x90] (DummyStrip.new 1)) =
      some (.done .Ended (initState [0x90] (DummyStrip.new 1))) ∧
    outcomeOf (run none 1 (initState [0x76] (DummyStrip.new 1))) =
      some (.Error .UnknownInstruction) ∧
    outcomeOf (run none 1 (initState [0xE7] (DummyStrip.new 1))) =
      some (.Error .UnknownInstruction) ∧
    outcomeOf (run none 1 (initState [0xF0] (DummyStrip.new 1))) =
      some (.Error .UnknownInstruction) :=
  ⟨C2_unknown_instruction.1 none 0 _ 0x90 (by decide) rfl rfl rfl rfl,
   C2_unknown_instruction.2.1 none 0 _ 0x76 (by decide) rfl rfl rfl (by decide) (by decide),
   C2_unknown_instruction.2.2.1 none 0 _ 0xE7 (by decide) rfl rfl rfl (by decide) (by decide),
   C2_unknown_instruction.2.2.2 none 0 _ 0xF0 (by decide) rfl rfl rfl (by decide) (by decide)⟩

/-- Claim C5, amended. `from_buffer` returns `MessageTooShort` exactly for
buffers of 20 to 25 bytes (`data_size < 6`, the only length rejection): a
buffer shorter than 20 bytes instead panics on the underflowing
`buffer.len() - SHA1_SIZE`, and a buffer of 26 bytes or more — in particular
the 26–30-byte buffers still below the claim's 31-byte bound — is never
rejected as too short: it proceeds to signature verification and yields
`SignatureInvalid` whenever the recomputed HMAC differs. -/
theorem C5_too_short :
    (∀ (hmac : List Nat → List Nat → List Nat) (buffer key : List Nat),
       buffer.length < 20 → from_buffer hmac buffer key = .panicked) ∧
    (∀ (hmac : List Nat → List Nat → List Nat) (buffer key : List Nat),
       20 ≤ buffer.length → buffer.length < 26 →
       from_buffer hmac buffer key = .err .MessageTooShort) ∧
    (∀ (hmac : List Nat → List Nat → List Nat) (buffer key : List Nat),
       26 ≤ buffer.length →
       from_buffer hmac buffer key ≠ .err .MessageTooShort) ∧
    (∀ (hmac : List Nat → List Nat → List Nat) (buffer key : List Nat),
       26 ≤ buffer.length →
       hmac key (buffer.take (buffer.length - 20)) ≠
         buffer.drop (buffer.length - 20) →
       from_buffer hmac buffer key = .err .SignatureInvalid) := by
  refine ⟨?_, ?_, ?_, ?_⟩
  · intro hmac buffer key h
    unfold from_buffer
    simp [h]
  · intro hmac buffer key h20 h26
    unfold from_buffer
    have h1 : ¬ buffer.length < 20 := by omega
    have h2 : buffer.length - 20 < 6 := by omega
    simp [h1, h2]
  · intro hmac buffer key h26
    have h1 : ¬ buffer.length < 20 := by omega
    have h2 : ¬ (buffer.length - 20 < 6) := by omega
    have h3 : ¬ buffer.length < 26 := by omega
    unfold from_buffer peek_mac_address
    simp only [h1, h2, h3, if_false]
    by_cases hsig :
        hmac key (buffer.take (buffer.length - 20)) =
          buffer.drop (buffer.length - 20)
    · simp only [hsig]
      by_cases h10 : buffer.length - 20 < 10
      · simp [h10]
      · simp [h10]
    · simp [hsig]
  · intro hmac buffer key h26 hsig
    have h1 : ¬ buffer.length < 20 := by omega
    have h2 : ¬ (buffer.length - 20 < 6) := by omega
    unfold from_buffer
    simp [h1, h2, hsig]

/-- Witness for `C5_too_short`: a 5-byte buffer panics; a 21-byte buffer is
rejected as too short; a 26-byte all-zero buffer is not rejected as too short
and, its tag differing from `testHmac`'s constant tag, fails with
`SignatureInvalid`. -/
theorem C5_too_short_witness :
    from_buffer testHmac (List.replicate 5 0) [] = .panicked ∧
    from_buffer testHmac (List.replicate 21 0) [] = .err .MessageTooShort ∧
    from_buffer testHmac (List.replicate 26 0) [] ≠ .err .MessageTooShort ∧
    from_buffer testHmac (List.replicate 26 0) [] = .err .SignatureInvalid :=
  ⟨C5_too_short.1 testHmac _ [] (by simp),
   C5_too_short.2.1 testHmac _ [] (by simp) (by simp),
   C5_too_short.2.2.1 testHmac _ [] (by simp),
   C5_too_short.2.2.2 testHmac _ [] (by simp) (by decide)⟩

/-- Claim C3, amended. `run(Some(1))` executes exactly one instruction.  When
the first instruction decodes, executes without yielding, erroring,
panicking or jumping, and the next `pc` is still inside the program, `run`
returns `LocalInstructionLimitReached` with `pc` at the opcode immediately
following the executed instruction; when the next `pc` is at or past the end
of the program, `run` returns `Ended` instead (the `while` guard fails before
the limit is ever consulted, vm.rs:195).  The VM must have no global limit
about to trigger. -/
theorem C3_local_limit_one :
    ∀ (fuel : Nat) (s s' : VMState) (pre : PrefixNibble) (b : Nat),
      s.pc < s.program.length →
      globalHit s = false →
      s.program.getD s.pc 0 = b →
      PrefixNibble.ofByte b = some pre →
      execInstr { s with instruction_count := s.instruction_count + 1 } pre (b % 16) =
        .next s' →
      s'.instruction_limit = none →
      run (some 1) (fuel + 1 + 1) s =
        some (.done
          (if s'.pc + 1 < s'.program.length then .LocalInstructionLimitReached
           else .Ended)
          { s' with pc := s'.pc + 1 }) := by
  intro fuel s s' pre b hpc hg hby hpre hexec hlim
  have hg2 : globalHit { s' with pc := s'.pc + 1 } = false := by
    simp [globalHit, hlim]
  by_cases hend : s'.pc + 1 < s'.program.length
  · conv_lhs => unfold run runAux
    rw [hby]
    simp [hpc, hg, hpre, hexec, runAux, hg2, localHit, hend]
  · conv_lhs => unfold run runAux
    rw [hby]
    simp [hpc, hg, hpre, hexec, runAux, hg2, localHit, hend]

/-- Witness for `C3_local_limit_one`: on the two-instruction program
`[0x00, 0x00]` (`POP 0; POP 0`), `run(Some(1))` stops with
`LocalInstructionLimitReached` and `pc = 1`. -/
theorem C3_local_limit_one_witness :
    run (some 1) 2 (initState [0x00, 0x00] (DummyStrip.new 1)) =
      some (.done .LocalInstructionLimitReached
        { initState [0x00, 0x00] (DummyStrip.new 1) with
            pc := 1, instruction_count := 1 }) := by
  have h := C3_local_limit_one 0 (initState [0x00, 0x00] (DummyStrip.new 1))
      { initState [0x00, 0x00] (DummyStrip.new 1) with instruction_count := 1 }
      .POP 0x00 (by decide) rfl rfl rfl rfl rfl
  simpa using h

/-- Claim C10. `POP p` with `p` greater than the stack depth, and `PEEK p` with
`p` at least the stack depth, hit the `assert!`s at vm.rs:228-233 and
vm.rs:240-245: the VM panics instead of returning
`Error(StackUnderflow)`.  Under the preconditions `p ≤ depth` (`POP`) and
`p < depth` (`PEEK`) both are total: `POP` drops exactly `p` values and
`PEEK` pushes a duplicate of the value at depth `p` from the top, and the
loop continues at the next opcode. -/
theorem C10_pop_peek :
    (∀ (lim : Option Nat) (fuel : Nat) (s : VMState) (b : Nat),
       s.pc < s.program.length →
       globalHit s = false →
       localHit lim 0 = false →
       s.program.getD s.pc 0 = b →
       b &&& 0xF0 = 0x00 →
       s.stack.length < b % 16 →
       run lim (fuel + 1) s = some .panicked) ∧
    (∀ (lim : Option Nat) (fuel : Nat) (s : VMState) (b : Nat),
       s.pc < s.program.length →
       globalHit s = false →
       localHit lim 0 = false →
       s.program.getD s.pc 0 = b →
       b &&& 0xF0 = 0x20 →
       s.stack.length ≤ b % 16 →
       run lim (fuel + 1) s = some .panicked) ∧
    (∀ (lim : Option Nat) (fuel : Nat) (s : VMState) (b : Nat),
       s.pc < s.program.length →
       globalHit s = false →
       localHit lim 0 = false →
       s.program.getD s.pc 0 = b →
       b &&& 0xF0 = 0x00 →
       b % 16 ≤ s.stack.length →
       run lim (fuel + 1) s = runAux lim fuel 1
         { s with instruction_count := s.instruction_count + 1,
                  stack := s.stack.drop (b % 16), pc := s.pc + 1 }) ∧
    (∀ (lim : Option Nat) (fuel : Nat) (s : VMState) (b : Nat),
       s.pc < s.program.length →
       globalHit s = false →
       localHit lim 0 = false →
       s.program.getD s.pc 0 = b →
       b &&& 0xF0 = 0x20 →
       b % 16 < s.stack.length →
       run lim (fuel + 1) s = runAux lim fuel 1
         { s with instruction_count := s.instruction_count + 1,
                  stack := s.stack.getD (b % 16) 0 :: s.stack, pc := s.pc + 1 }) := by
  refine ⟨?_, ?_, ?_, ?_⟩
  · intro lim fuel s b hpc hg hl hby hb hlen
    unfold run runAux
    rw [hby]
    simp [hpc, hg, hl, PrefixNibble.ofByte, hb, execInstr, Nat.not_le.mpr hlen]
  · intro lim fuel s b hpc hg hl hby hb hlen
    unfold run runAux
    rw [hby]
    simp [hpc, hg, hl, PrefixNibble.ofByte, hb, execInstr, Nat.not_lt.mpr hlen]
  · intro lim fuel s b hpc hg hl hby hb hlen
    conv_lhs => unfold run runAux
    rw [hby]
    simp [hpc, hg, hl, PrefixNibble.ofByte, hb, execInstr, hlen]
  · intro lim fuel s b hpc hg hl hby hb hlen
    conv_lhs => unfold run runAux
    rw [hby]
    simp [hpc, hg, hl, PrefixNibble.ofByte, hb, execInstr, hlen]

/-- Witness for `C10_pop_peek`: `POP 1` and `PEEK 0` on an empty stack panic;
`POP 2` and `PEEK 1` on the stack `[5, 7]` (top first) drop both values
resp. push the depth-1 value `7`. -/
theorem C10_pop_peek_witness :
    run none 1 (initState [0x01] (DummyStrip.new 1)) = some .panicked ∧
    run none 1 (initState [0x20] (DummyStrip.new 1)) = some .panicked ∧
    run none 2 { initState [0x02] (DummyStrip.new 1) with stack := [5, 7] } =
      runAux none 1 1 { initState [0x02] (DummyStrip.new 1) with
        stack := [], instruction_count := 1, pc := 1 } ∧
    run none 2 { initState [0x21] (DummyStrip.new 1) with stack := [5, 7] } =
      runAux none 1 1 { initState [0x21] (DummyStrip.new 1) with
        stack := [7, 5, 7], instruction_count := 1, pc := 1 } :=
  ⟨C10_pop_peek.1 none 0 _ 0x01 (by decide) rfl rfl rfl (by decide) (by decide),
   C10_pop_peek.2.1 none 0 _ 0x20 (by decide) rfl rfl rfl (by decide) (by decide),
   C10_pop_peek.2.2.1 none 1 _ 0x02 (by decide) rfl rfl rfl (by decide) (by decide),
   C10_pop_peek.2.2.2 none 1 _ 0x21 (by decide) rfl rfl rfl (by decide) (by decide)⟩

/-- Claim C8, amended. Executing `USER GET_PIXEL` with an in-range index `idx`
on top of the stack pops `idx` and pushes
`(idx & 0xFF) | r<<8 | g<<16 | b<<24` — the index contributes only its low
8 bits (vm.rs:155), not the full 32-bit value the claim states. -/
theorem C8_get_pixel_semantics :
    ∀ (lim : Option Nat) (fuel : Nat) (s : VMState) (b idx : Nat)
      (rest : List Nat) (c : Color),
      s.pc < s.program.length →
      globalHit s = false →
      localHit lim 0 = false →
      s.program.getD s.pc 0 = b →
      b &&& 0xF0 = 0xE0 →
      b % 16 = 6 →
      s.stack = idx :: rest →
      s.strip.get_pixel idx = some c →
      run lim (fuel + 1) s = runAux lim fuel 1
        { s with instruction_count := s.instruction_count + 1,
                 stack := ((idx &&& 0xFF) ||| (c.r <<< 8) ||| (c.g <<< 16) |||
                           (c.b <<< 24)) :: rest,
                 pc := s.pc + 1 } := by
  intro lim fuel s b idx rest c hpc hg hl hby hb h6 hstack hpix
  conv_lhs => unfold run runAux
  rw [hby]
  simp [hpc, hg, hl, PrefixNibble.ofByte, hb, execInstr, h6, userStep,
    UserCommand.fromCode, hstack, hpix]

/-- Witness for `C8_get_pixel_semantics`: `GET_PIXEL` of index 256 on an
all-black strip of length 300 pushes `(256 & 0xFF) | 0 | 0 | 0 = 0`. -/
theorem C8_get_pixel_semantics_witness :
    run none 2 { initState [0xE6] (DummyStrip.new 300) with stack := [256] } =
      runAux none 1 1 { initState [0xE6] (DummyStrip.new 300) with
        stack := [0], instruction_count := 1, pc := 1 } :=
  C8_get_pixel_semantics none 1 _ 0xE6 256 [] { r := 0, g := 0, b := 0 }
    (by decide) rfl rfl rfl (by decide) (by decide) rfl (by decide)

/-- The device-table entry used in the witness of the server claim. -/
def c9_status : DeviceStatus :=
  { address := "d", program := none, secret := [1], last_seen := 0 }

/-- Claim C9. A datagram whose HMAC does not verify under the secret resolved
for its MAC address leaves the server's device table unchanged and sends
nothing: `Message::from_buffer` fails (`SignatureInvalid`, or
`MessageTooShort` already at `peek_mac_address` for frames under 26 bytes),
and the error arm of `Server::run` (server.rs:102-106) only logs — the
device-status insert at server.rs:185 is inside the `Ok` arm. -/
theorem C9_bad_signature_keeps_devices :
    ∀ (hmac : List Nat → List Nat → List Nat)
      (config : List (List Nat × DeviceConfig))
      (default_secret default_program : List Nat)
      (devices : List (List Nat × DeviceStatus))
      (buffer : List Nat) (source_address : String) (now : Nat),
      hmac (resolveSecret config default_secret (buffer.take 6))
          (buffer.take (buffer.length - 20)) ≠
        buffer.drop (buffer.length - 20) →
      handle_datagram hmac config default_secret default_program devices buffer
        source_address now = .ok devices [] := by
  intro hmac config ds dp devices buffer src now hbad
  unfold resolveSecret at hbad
  unfold handle_datagram peek_mac_address
  by_cases hlen : buffer.length < 26
  · simp [hlen]
  · have h20 : ¬ buffer.length < 20 := by omega
    have h6 : ¬ (buffer.length - 20 < 6) := by omega
    unfold from_buffer
    simp [hlen, h20, h6, hbad]

/-- Witness for `C9_bad_signature_keeps_devices`: a 26-byte all-zero datagram
whose tag bytes do not match `testHmac`'s constant tag is dropped; the
one-entry device table is returned unchanged. -/
theorem C9_bad_signature_keeps_devices_witness :
    handle_datagram testHmac [] [1] [] [([0, 0, 0, 0, 0, 0], c9_status)]
      (List.replicate 26 0) "s" 5 =
      .ok [([0, 0, 0, 0, 0, 0], c9_status)] [] :=
  C9_bad_signature_keeps_devices testHmac [] [1] [] _ _ "s" 5 (by decide)

end Pwlp
